import Mathlib

/-!
Verification of the `derrors` error-annotation package.

The package provides three pieces:

* `Wrap(errp *error, format string, args ...)` — if `*errp` is non-nil,
  replaces it with `fmt.Errorf("%s: %w", fmt.Sprintf(format, args...), *errp)`.
* `WrapStack` — like `Wrap`, but first installs a `StackError` around the
  current error when no `StackError` is found in the unwrap chain
  (checked with `errors.As`).
* `StackError` — holds a captured stack trace (`Stack []byte`, at most
  16 KiB, written by `runtime.Stack`) next to an inner error `err`;
  its `Error()` forwards to `err.Error()` and `Unwrap()` returns `err`.

Modelling choices:

* A non-nil Go `error` value is a `GoErr`; a possibly-nil `error` slot is an
  `Option GoErr` (`none` = nil interface value).
* `fmt.Errorf("%s: %w", msg, e)` is the constructor `GoErr.errorf msg e`:
  it renders as `msg ++ ": " ++ e.Error()` and unwraps to `e`.
* A `*StackError` value is the constructor `GoErr.stackErr stack inner`,
  where `inner : Option GoErr` because the `err` field may be nil.
* Rendering (`Error()`) returns `Option String`: `none` models a runtime
  panic (calling `Error()` on a nil inner error dereferences nil).
* `runtime.Stack(buf[:], false)` is modelled by an ambient byte list
  `dump` (the textual stack of the calling goroutine, of arbitrary
  length); the runtime writes a prefix of it bounded by the buffer size
  and returns the number of bytes written, so the captured trace is
  `dump.take bufSize`. Operations that may capture a stack take the
  ambient `dump` as an explicit parameter.
* `WrapStack` additionally returns the number of `NewStackError`
  invocations (stack walks) its execution performs, so that the
  "exactly one snapshot" claims can be stated.
-/

namespace Derrors

/-- A non-nil Go error value reachable in this package's world:
a base error (e.g. from `errors.New`, rendering to its message, with no
`Unwrap`), a `fmt.Errorf("%s: %w", msg, inner)` wrapper, or a
`*StackError` with its `Stack` bytes and its inner `err` field. Since the
`err` field may itself be the nil interface, that case is the separate
constructor `stackErrNil` (the Option-flattened form of
`stackErr (inner : Option GoErr)`). -/
inductive GoErr : Type where
  | base (msg : String)
  | errorf (msg : String) (inner : GoErr)
  | stackErr (stack : List UInt8) (inner : GoErr)
  | stackErrNil (stack : List UInt8)
  deriving DecidableEq, Repr

/-- The `Error()` method: how a value renders to a string. `none` models a
panic. `base msg` renders as `msg`; `errorf msg inner` (built by
`fmt.Errorf("%s: %w", msg, inner)`) renders as `msg ++ ": " ++ inner.Error()`;
`StackError.Error` returns `e.err.Error()`, ignoring the stack, and panics
(nil dereference) when `e.err` is nil. -/
def GoErr.render : GoErr → Option String
  | .base msg => some msg
  | .errorf msg inner => (GoErr.render inner).map (fun s => msg ++ ": " ++ s)
  | .stackErr _ inner => GoErr.render inner
  | .stackErrNil _ => none

/-- The `Unwrap()` method of the chain: an `errorf` node unwraps to the
wrapped error, `StackError.Unwrap` returns `e.err`, and a base error has
no `Unwrap`. -/
def GoErr.Unwrap : GoErr → Option GoErr
  | .base _ => none
  | .errorf _ inner => some inner
  | .stackErr _ inner => some inner
  | .stackErrNil _ => none

/-- The test `errors.As(e, &se)` for `se : *StackError`: walk the unwrap
chain and report whether any node is a `*StackError` (stopping at the
first match). -/
def hasStackError : GoErr → Bool
  | .base _ => false
  | .errorf _ inner => hasStackError inner
  | .stackErr _ _ => true
  | .stackErrNil _ => true

/-- Helper for `sprintf`: substitute each `%s` verb in the format
character list by the next argument; extra verbs render Go's
`%!s(MISSING)` marker. Only the `%s` verb (the one the package's callers
use) is modelled. -/
def sprintfAux : List Char → List String → List Char
  | [], _ => []
  | '%' :: 's' :: rest, a :: as => a.data ++ sprintfAux rest as
  | '%' :: 's' :: rest, [] => "%!s(MISSING)".data ++ sprintfAux rest []
  | c :: rest, as => c :: sprintfAux rest as

/-- Model of `fmt.Sprintf(format, args...)` restricted to `%s` verbs with
string arguments. -/
def sprintf (format : String) (args : List String) : String :=
  ⟨sprintfAux format.data args⟩

/-- Model of `Wrap(errp, format, args...)`: if `*errp` is non-nil, replace
it with `fmt.Errorf("%s: %w", fmt.Sprintf(format, args...), *errp)`;
otherwise do nothing. The function returns the new contents of the slot. -/
def Wrap (errp : Option GoErr) (format : String) (args : List String) : Option GoErr :=
  match errp with
  | none => none
  | some e => some (.errorf (sprintf format args) e)

/-- The stack-buffer size used by `NewStackError`: `var buf [16 * 1024]byte`. -/
def bufSize : Nat := 16 * 1024

/-- Model of `n := runtime.Stack(buf[:], false); buf[:n]`: the runtime
writes a prefix of the ambient goroutine stack text `dump` into the
16 KiB buffer and reports the bytes written. -/
def runtimeStack (dump : List UInt8) : List UInt8 :=
  dump.take bufSize

/-- Model of `NewStackError(err)`: capture the (bounded) stack trace and
return `&StackError{err: err, Stack: buf[:n]}`. Construction is total. -/
def NewStackError (dump : List UInt8) (err : Option GoErr) : GoErr :=
  match err with
  | some e => .stackErr (runtimeStack dump) e
  | none => .stackErrNil (runtimeStack dump)

/-- Model of `WrapStack(errp, format, args...)`: if `*errp` is non-nil and
`errors.As` finds no `*StackError` in its chain, set
`*errp = NewStackError(*errp)`; then apply `Wrap`. The second component
counts the `NewStackError` invocations (stack walks) performed. -/
def WrapStack (dump : List UInt8) (errp : Option GoErr) (format : String)
    (args : List String) : Option GoErr × Nat :=
  match errp with
  | none => (none, 0)
  | some e =>
    if hasStackError e then
      (Wrap (some e) format args, 0)
    else
      (Wrap (some (NewStackError dump (some e))) format args, 1)

/-- The `Stack` field of a `*StackError` value (and `[]` on the other
variants, which have no such field). -/
def GoErr.stackField : GoErr → List UInt8
  | .stackErr stack _ => stack
  | .stackErrNil stack => stack
  | .base _ => []
  | .errorf _ _ => []

/-- Number of `*StackError` nodes in an unwrap chain. -/
def stackCount : GoErr → Nat
  | .base _ => 0
  | .errorf _ inner => stackCount inner
  | .stackErr _ inner => 1 + stackCount inner
  | .stackErrNil _ => 1

/-- One annotation call made as the error propagates: either
`Wrap(&err, format, args...)` or `WrapStack(&err, format, args...)`
(the latter carrying the ambient stack text at its call site). -/
inductive AnnCall : Type where
  | wrap (format : String) (args : List String)
  | wrapStack (format : String) (args : List String) (dump : List UInt8)
  deriving DecidableEq, Repr

/-- Whether an annotation call is a `WrapStack` call. -/
def AnnCall.isStack : AnnCall → Bool
  | .wrap _ _ => false
  | .wrapStack _ _ _ => true

/-- Apply one annotation call to an error slot, also reporting how many
stack snapshots the call captured. -/
def applyCall : AnnCall → Option GoErr → Option GoErr × Nat
  | .wrap format args, errp => (Wrap errp format args, 0)
  | .wrapStack format args dump, errp => WrapStack dump errp format args

/-- Apply a sequence of annotation calls, first call first, summing the
number of captured stack snapshots. -/
def applyCalls : List AnnCall → Option GoErr → Option GoErr × Nat
  | [], errp => (errp, 0)
  | c :: cs, errp =>
    let r := applyCall c errp
    let rest := applyCalls cs r.1
    (rest.1, r.2 + rest.2)

/-- Iterate `Unwrap` `k` times from an error slot (a nil slot stays nil,
and unwrapping a base error yields nil). -/
def unwrapIter : Nat → Option GoErr → Option GoErr
  | 0, errp => errp
  | _ + 1, none => none
  | k + 1, some e => unwrapIter k e.Unwrap

/-- Erase every `*StackError` node from a chain, keeping the message
nodes; `none` when the chain ends in a nil-inner `StackError`. Used to
state that two chains differ only in `StackError` nodes. -/
def stripStacks : GoErr → Option GoErr
  | .base msg => some (.base msg)
  | .errorf msg inner => (stripStacks inner).map (.errorf msg)
  | .stackErr _ inner => stripStacks inner
  | .stackErrNil _ => none

/-! ## Helper lemmas -/

theorem unwrapIter_none (k : Nat) : unwrapIter k none = none := by
  cases k <;> rfl

theorem unwrapIter_add (j k : Nat) (x : Option GoErr) :
    unwrapIter (j + k) x = unwrapIter k (unwrapIter j x) := by
  induction j generalizing x with
  | zero => rw [Nat.zero_add]; rfl
  | succ j ih =>
    cases x with
    | none => simp [unwrapIter_none]
    | some e =>
      rw [Nat.succ_add]
      show unwrapIter (j + k) e.Unwrap = unwrapIter k (unwrapIter j e.Unwrap)
      exact ih e.Unwrap

/-- One annotation call on a non-nil slot yields a non-nil error from
which finitely many `Unwrap` steps recover the pre-call error. -/
theorem applyCall_reach (c : AnnCall) (e : GoErr) :
    ∃ e' j, (applyCall c (some e)).1 = some e' ∧ unwrapIter j (some e') = some e := by
  cases c with
  | wrap format args =>
    exact ⟨.errorf (sprintf format args) e, 1, rfl, rfl⟩
  | wrapStack format args dump =>
    cases h : hasStackError e with
    | true =>
      refine ⟨.errorf (sprintf format args) e, 1, ?_, rfl⟩
      simp [applyCall, WrapStack, h, Wrap]
    | false =>
      refine ⟨.errorf (sprintf format args) (.stackErr (runtimeStack dump) e), 2, ?_, rfl⟩
      simp [applyCall, WrapStack, h, Wrap, NewStackError]

/-- An error with no `StackError` in its chain has zero `StackError`
nodes. -/
theorem stackCount_eq_zero (e : GoErr) (h : hasStackError e = false) :
    stackCount e = 0 := by
  induction e with
  | base msg => rfl
  | errorf msg inner ih => exact ih h
  | stackErr s inner ih => simp [hasStackError] at h
  | stackErrNil s => simp [hasStackError] at h

/-- Once a chain contains a `StackError`, any further annotation calls
capture no snapshot and preserve the `StackError` count. -/
theorem applyCalls_stacked (calls : List AnnCall) (e : GoErr)
    (h : hasStackError e = true) :
    ∃ e', applyCalls calls (some e) = (some e', 0) ∧
      stackCount e' = stackCount e ∧ hasStackError e' = true := by
  induction calls generalizing e with
  | nil => exact ⟨e, rfl, rfl, h⟩
  | cons c cs ih =>
    have step : ∃ e₁, applyCall c (some e) = (some e₁, 0) ∧
        stackCount e₁ = stackCount e ∧ hasStackError e₁ = true := by
      cases c with
      | wrap f a => exact ⟨.errorf (sprintf f a) e, rfl, rfl, h⟩
      | wrapStack f a d =>
        refine ⟨.errorf (sprintf f a) e, ?_, rfl, h⟩
        simp [applyCall, WrapStack, h, Wrap]
    obtain ⟨e₁, h1, hc1, hs1⟩ := step
    obtain ⟨e', h2, hc2, hs2⟩ := ih e₁ hs1
    refine ⟨e', ?_, hc1 ▸ hc2, hs2⟩
    simp [applyCalls, h1, h2]

/-! ## Claim theorems -/

/-- C1: wrapping a non-nil error prepends the formatted message and a
colon-space to the old rendering; concretely, an error rendering as `s`
renders as `"open(a.txt): " ++ s` after `Wrap(&err, "open(%s)", "a.txt")`
and as `"load config: open(a.txt): " ++ s` after a further
`Wrap(&err, "load config")`. -/
theorem wrap_message_chaining (e : GoErr) (s : String) (format : String)
    (args : List String) (h : GoErr.render e = some s) :
    (∃ w, Wrap (some e) format args = some w ∧
      GoErr.render w = some (sprintf format args ++ ": " ++ s)) ∧
    (∃ w₁ w₂, Wrap (some e) "open(%s)" ["a.txt"] = some w₁ ∧
      GoErr.render w₁ = some ("open(a.txt): " ++ s) ∧
      Wrap (some w₁) "load config" [] = some w₂ ∧
      GoErr.render w₂ = some ("load config: open(a.txt): " ++ s)) := by
  have hopen : sprintf "open(%s)" ["a.txt"] = "open(a.txt)" := by decide
  have hload : sprintf "load config" [] = "load config" := by decide
  have hcat : "load config: " ++ "open(a.txt): " = "load config: open(a.txt): " := by decide
  refine ⟨⟨.errorf (sprintf format args) e, rfl, ?_⟩,
    ⟨.errorf (sprintf "open(%s)" ["a.txt"]) e,
     .errorf (sprintf "load config" []) (.errorf (sprintf "open(%s)" ["a.txt"]) e),
     rfl, ?_, rfl, ?_⟩⟩ <;>
    simp [GoErr.render, h, hopen, hload]
  rw [← String.append_assoc, hcat]

/-- Witness for C1 at the spec's concrete example: the original error
renders as "file not found". -/
theorem wrap_message_chaining_witness :
    GoErr.render (.base "file not found") = some "file not found" ∧
    ((∃ w, Wrap (some (.base "file not found")) "open(%s)" ["a.txt"] = some w ∧
      GoErr.render w = some (sprintf "open(%s)" ["a.txt"] ++ ": " ++ "file not found")) ∧
    (∃ w₁ w₂, Wrap (some (.base "file not found")) "open(%s)" ["a.txt"] = some w₁ ∧
      GoErr.render w₁ = some ("open(a.txt): " ++ "file not found") ∧
      Wrap (some w₁) "load config" [] = some w₂ ∧
      GoErr.render w₂ = some ("load config: open(a.txt): " ++ "file not found"))) :=
  ⟨rfl, wrap_message_chaining (.base "file not found") "file not found"
    "open(%s)" ["a.txt"] rfl⟩

/-- C2: when the error slot holds nil, `Wrap` and `WrapStack` are no-ops:
the slot stays nil, no error value is constructed, and no stack snapshot
is captured (second component 0 = no `NewStackError` call, hence no stack
walk). -/
theorem nil_slot_noop (format : String) (args : List String) (dump : List UInt8) :
    Wrap none format args = none ∧ WrapStack dump none format args = (none, 0) :=
  ⟨rfl, rfl⟩

/-- C5: a `StackError` renders exactly as its inner error renders; the
rendering does not depend on the trace bytes (any two traces give the
same rendering), including for an empty inner message or an empty
trace. -/
theorem stackerror_renders_inner (stack₁ stack₂ : List UInt8) (inner : GoErr) :
    GoErr.render (.stackErr stack₁ inner) = GoErr.render inner ∧
    GoErr.render (.stackErr stack₁ inner) = GoErr.render (.stackErr stack₂ inner) ∧
    GoErr.render (.stackErr stack₁ (.base "")) = some "" ∧
    GoErr.render (.stackErr [] inner) = GoErr.render inner :=
  ⟨rfl, rfl, rfl, rfl⟩

/-- C6: a trace captured by `NewStackError` is at most 16 KiB long no
matter how long the ambient stack text is; construction always yields a
`StackError` node, and an empty ambient stack yields a (valid) empty
trace. -/
theorem newstackerror_trace_bound (dump : List UInt8) (err : Option GoErr) :
    (NewStackError dump err).stackField.length ≤ 16 * 1024 ∧
    (∃ stackBytes, NewStackError dump err = .stackErr stackBytes (err.getD (.base ""))
      ∨ NewStackError dump err = .stackErrNil stackBytes) ∧
    (NewStackError [] err).stackField = [] := by
  refine ⟨?_, ⟨runtimeStack dump, ?_⟩, ?_⟩ <;> cases err <;>
    simp [NewStackError, GoErr.stackField, runtimeStack, bufSize]

/-- C9: `NewStackError(nil)` succeeds (it returns a `StackError` whose
inner error is nil), but rendering that value panics (`render = none`
models the nil dereference in `Error()`), and its `Unwrap` yields nil, so
rendering after unwrapping panics as well. -/
theorem newstackerror_nil_unsafe (dump : List UInt8) :
    NewStackError dump none = .stackErrNil (runtimeStack dump) ∧
    GoErr.render (NewStackError dump none) = none ∧
    GoErr.Unwrap (NewStackError dump none) = none :=
  ⟨rfl, rfl, rfl⟩

/-- C10: `Wrap` is deterministic in its observable output: on the same
error value it produces the same result, and on any two error values with
the same rendering (with the same format and arguments) the results
render identically and each unwraps to its respective predecessor. -/
theorem wrap_deterministic (e₁ e₂ : GoErr) (format : String) (args : List String)
    (h : GoErr.render e₁ = GoErr.render e₂) :
    ∃ w₁ w₂, Wrap (some e₁) format args = some w₁ ∧
      Wrap (some e₂) format args = some w₂ ∧
      GoErr.render w₁ = GoErr.render w₂ ∧
      GoErr.Unwrap w₁ = some e₁ ∧ GoErr.Unwrap w₂ = some e₂ ∧
      (e₁ = e₂ → w₁ = w₂) := by
  refine ⟨.errorf (sprintf format args) e₁, .errorf (sprintf format args) e₂,
    rfl, rfl, ?_, rfl, rfl, ?_⟩
  · simp [GoErr.render, h]
  · intro he; rw [he]

/-- Witness for C10 at two identical base errors. -/
theorem wrap_deterministic_witness :
    GoErr.render (.base "x") = GoErr.render (.base "x") ∧
    (∃ w₁ w₂, Wrap (some (.base "x")) "f" [] = some w₁ ∧
      Wrap (some (.base "x")) "f" [] = some w₂ ∧
      GoErr.render w₁ = GoErr.render w₂ ∧
      GoErr.Unwrap w₁ = some (.base "x") ∧ GoErr.Unwrap w₂ = some (.base "x") ∧
      (GoErr.base "x" = GoErr.base "x" → w₁ = w₂)) :=
  ⟨rfl, wrap_deterministic (.base "x") (.base "x") "f" [] rfl⟩

/-- C3: for any sequence of `Wrap`/`WrapStack` calls applied to an
original error, the final slot holds an error from which some number of
`Unwrap` steps recovers the exact original error value. -/
theorem unwrap_reaches_original (calls : List AnnCall) (e₀ : GoErr) :
    ∃ e' k, (applyCalls calls (some e₀)).1 = some e' ∧
      unwrapIter k (some e') = some e₀ := by
  induction calls generalizing e₀ with
  | nil => exact ⟨e₀, 0, rfl, rfl⟩
  | cons c cs ih =>
    obtain ⟨e₁, j, h1, hj⟩ := applyCall_reach c e₀
    obtain ⟨e', k, h2, hk⟩ := ih e₁
    refine ⟨e', k + j, ?_, ?_⟩
    · simp only [applyCalls]
      rw [h1]
      exact h2
    · rw [unwrapIter_add, hk, hj]

/-- C4 counterexample: the claim quantifies over every non-nil error, but
an error that already contains `StackError` nodes (buildable with the
exported `NewStackError`, here two nested ones) refutes it: after one
`WrapStack` call the final chain holds two `StackError` nodes, not one,
and zero snapshots (not one) were captured across the calls. -/
theorem wrapstack_single_capture_cex :
    NewStackError [] (some (NewStackError [] (some (.base "x"))))
      = GoErr.stackErr [] (.stackErr [] (.base "x")) ∧
    applyCalls [AnnCall.wrapStack "m" [] []]
        (some (GoErr.stackErr [] (.stackErr [] (.base "x"))))
      = (some (.errorf "m" (.stackErr [] (.stackErr [] (.base "x")))), 0) ∧
    stackCount (GoErr.errorf "m" (.stackErr [] (.stackErr [] (.base "x")))) = 2 := by
  have hm : sprintf "m" [] = "m" := by decide
  refine ⟨?_, ?_, rfl⟩
  · simp [NewStackError, runtimeStack]
  · simp [applyCalls, applyCall, WrapStack, hasStackError, Wrap, hm]

/-- C4 (amended): for every non-nil error whose chain contains no
`StackError` yet, applying at least one `WrapStack` call (and only
`WrapStack` calls) leaves exactly one `StackError` node in the final
chain, with exactly one snapshot captured across all the calls. -/
theorem wrapstack_single_capture (e : GoErr) (calls : List AnnCall)
    (hne : calls ≠ []) (hstk : ∀ c ∈ calls, c.isStack = true)
    (h0 : hasStackError e = false) :
    ∃ e', applyCalls calls (some e) = (some e', 1) ∧ stackCount e' = 1 := by
  cases calls with
  | nil => exact absurd rfl hne
  | cons c cs =>
    have hc : c.isStack = true := hstk c (List.mem_cons_self c cs)
    cases c with
    | wrap f a => simp [AnnCall.isStack] at hc
    | wrapStack f a d =>
      have h1 : applyCall (.wrapStack f a d) (some e)
          = (some (.errorf (sprintf f a) (.stackErr (runtimeStack d) e)), 1) := by
        simp [applyCall, WrapStack, h0, Wrap, NewStackError]
      have hs1 : hasStackError (.errorf (sprintf f a) (.stackErr (runtimeStack d) e))
          = true := rfl
      obtain ⟨e', h2, hc2, _⟩ := applyCalls_stacked cs _ hs1
      refine ⟨e', ?_, ?_⟩
      · simp [applyCalls, h1, h2]
      · rw [hc2]
        show 1 + stackCount e = 1
        rw [stackCount_eq_zero e h0]

/-- Witness for the amended C4: three successive `WrapStack` calls on a
plain error capture one snapshot and leave one `StackError` node. -/
theorem wrapstack_single_capture_witness :
    ([AnnCall.wrapStack "m1" [] [], .wrapStack "m2" [] [], .wrapStack "m3" [] []]
        ≠ ([] : List AnnCall)) ∧
    (∀ c ∈ [AnnCall.wrapStack "m1" [] [], .wrapStack "m2" [] [], .wrapStack "m3" [] []],
      c.isStack = true) ∧
    hasStackError (.base "boom") = false ∧
    (∃ e', applyCalls
        [AnnCall.wrapStack "m1" [] [], .wrapStack "m2" [] [], .wrapStack "m3" [] []]
        (some (.base "boom")) = (some e', 1) ∧ stackCount e' = 1) :=
  ⟨by decide, by decide, rfl,
    wrapstack_single_capture (.base "boom") _ (by decide) (by decide) rfl⟩

/-- C7: `WrapStack` then `Wrap` yields the same rendered message as
`Wrap` then `Wrap` on the same error; the first chain contains a
`StackError`, and erasing `StackError` nodes makes the two chains
identical (they differ only in `StackError` nodes). -/
theorem wrapstack_wrap_equiv (e : GoErr) (f₁ f₂ : String) (a₁ a₂ : List String)
    (dump : List UInt8) :
    ∃ w₁ w₂,
      Wrap (WrapStack dump (some e) f₁ a₁).1 f₂ a₂ = some w₁ ∧
      Wrap (Wrap (some e) f₁ a₁) f₂ a₂ = some w₂ ∧
      GoErr.render w₁ = GoErr.render w₂ ∧
      hasStackError w₁ = true ∧
      stripStacks w₁ = stripStacks w₂ := by
  cases h : hasStackError e with
  | true =>
    refine ⟨.errorf (sprintf f₂ a₂) (.errorf (sprintf f₁ a₁) e),
            .errorf (sprintf f₂ a₂) (.errorf (sprintf f₁ a₁) e), ?_, rfl, rfl, ?_, rfl⟩
    · simp [WrapStack, h, Wrap]
    · show hasStackError e = true
      exact h
  | false =>
    refine ⟨.errorf (sprintf f₂ a₂)
              (.errorf (sprintf f₁ a₁) (.stackErr (runtimeStack dump) e)),
            .errorf (sprintf f₂ a₂) (.errorf (sprintf f₁ a₁) e), ?_, rfl, ?_, rfl, ?_⟩
    · simp [WrapStack, h, Wrap, NewStackError]
    · simp [GoErr.render]
    · simp [stripStacks]

/-- C8: on a non-nil error with no `StackError` in its chain, `WrapStack`
produces exactly a message node over a newly built `StackError` over the
pre-call error, renders as `"{message}: {old rendering}"`, captures one
snapshot; and for every non-nil error (stacked or not) the context
message node is added. -/
theorem wrapstack_fresh_shape (e : GoErr) (format : String) (args : List String)
    (dump : List UInt8) (h : hasStackError e = false) :
    (WrapStack dump (some e) format args).1
      = some (.errorf (sprintf format args) (.stackErr (runtimeStack dump) e)) ∧
    (WrapStack dump (some e) format args).2 = 1 ∧
    (∀ s, GoErr.render e = some s →
      ((WrapStack dump (some e) format args).1.bind GoErr.render)
        = some (sprintf format args ++ ": " ++ s)) ∧
    (∀ e' : GoErr, ∃ inner, (WrapStack dump (some e') format args).1
      = some (.errorf (sprintf format args) inner)) := by
  refine ⟨?_, ?_, ?_, ?_⟩
  · simp [WrapStack, h, Wrap, NewStackError]
  · simp [WrapStack, h]
  · intro s hs
    simp [WrapStack, h, Wrap, NewStackError, GoErr.render, hs]
  · intro e'
    cases h' : hasStackError e' with
    | true => exact ⟨e', by simp [WrapStack, h', Wrap]⟩
    | false =>
      exact ⟨.stackErr (runtimeStack dump) e',
        by simp [WrapStack, h', Wrap, NewStackError]⟩

/-- Witness for C8 on a plain base error with a one-byte ambient stack. -/
theorem wrapstack_fresh_shape_witness :
    hasStackError (.base "b") = false ∧
    ((WrapStack [7] (some (.base "b")) "ctx" []).1
      = some (.errorf (sprintf "ctx" []) (.stackErr (runtimeStack [7]) (.base "b"))) ∧
    (WrapStack [7] (some (.base "b")) "ctx" []).2 = 1 ∧
    (∀ s, GoErr.render (.base "b") = some s →
      ((WrapStack [7] (some (.base "b")) "ctx" []).1.bind GoErr.render)
        = some (sprintf "ctx" [] ++ ": " ++ s)) ∧
    (∀ e' : GoErr, ∃ inner, (WrapStack [7] (some e') "ctx" []).1
      = some (.errorf (sprintf "ctx" []) inner))) :=
  ⟨rfl, wrapstack_fresh_shape (.base "b") "ctx" [] [7] rfl⟩

end Derrors
